import Mathlib

/-!
Shallow embedding of the flowmeter backend's reading-classification,
alert-deduplication and history-retention logic, translated from
`src/unnamed/part_002` (the Mongo-backed handler revision; the near-duplicate
variant `src/api/update_latest/index.js` shares `computeStatus` and
`compressReading` verbatim up to the module-global `previousFlow`).

Modelling conventions:
- JavaScript numbers are modelled by `JNum`: either `NaN` or an integer
  (the device sends integer counts; non-integer floats play no role in any
  claim).  JS comparison semantics on `NaN` (every `<`/`>` is false) are kept.
- `Number(string)` is modelled on its integer fragment: optional sign plus
  decimal digits after trimming; the empty/whitespace string is 0; any other
  string is `NaN` — exactly JS's behaviour on those inputs.
- The Mongo collections are modelled as a `DB` value: the singleton `latest`
  document as an `Option LatestDoc` and the `history` collection as a
  `List Entry`; `estimatedDocumentCount` is the list length and
  `find().sort(t:1).limit(extra)` + `deleteMany` keeps, as a multiset, every
  document except the `extra` oldest by `t` (survivors are represented in
  `t`-sorted order; ties broken by the stable sort, which the spec allows).
- `Date.now()`/`todayIST()` are inputs (`nowTime`, `today`) of the handler
  step, as the code reads them once per request.
-/

namespace Flowmeter

/-! ### Source constants (src/unnamed/part_002, CONFIG block) -/

def MAX_HISTORY_DOCS : Nat := 5000
def MAX_BODY_BYTES : Nat := 512
def SAVE_INTERVAL_MS : Int := 10000
def SAFE_THRESHOLD : Int := 120
def SPIKE_LIMIT : Int := 40
def NOISE_THRESHOLD : Int := 2

/-- The alert cooldown, `const cooldownMs = 10000` in the handler's ALERT
LOGIC block. -/
def cooldownMs : Int := 10000

/-! ### JavaScript value model -/

/-- A JS number: `NaN` or an integer value. -/
inductive JNum where
  | nan : JNum
  | int : Int → JNum
deriving DecidableEq

/-- JS subtraction: any operation on `NaN` is `NaN`. -/
def JNum.sub : JNum → JNum → JNum
  | JNum.int a, JNum.int b => JNum.int (a - b)
  | _, _ => JNum.nan

/-- `Math.abs`: `NaN` stays `NaN`. -/
def JNum.abs : JNum → JNum
  | JNum.int a => JNum.int |a|
  | JNum.nan => JNum.nan

/-- JS `<`: false whenever an operand is `NaN`. -/
def JNum.ltB : JNum → JNum → Bool
  | JNum.int a, JNum.int b => decide (a < b)
  | _, _ => false

/-- JS `>`: false whenever an operand is `NaN`. -/
def JNum.gtB (a b : JNum) : Bool := JNum.ltB b a

/-- A loosely-typed JS value as it arrives in the parsed request body. -/
inductive JSVal where
  | undef : JSVal
  | jsNull : JSVal
  | num : JNum → JSVal
  | str : String → JSVal
  | boolVal : Bool → JSVal
deriving DecidableEq

/-- The whitespace JS strips around a numeric string. -/
def jsWhitespace (c : Char) : Bool := c = ' ' ∨ c = '\t' ∨ c = '\n' ∨ c = '\r'

def trimChars (cs : List Char) : List Char :=
  ((cs.dropWhile jsWhitespace).reverse.dropWhile jsWhitespace).reverse

def digitsVal (cs : List Char) : Nat :=
  cs.foldl (fun a c => 10 * a + (c.toNat - 48)) 0

def parseDigits (cs : List Char) : Option Nat :=
  if cs.isEmpty then none
  else if cs.all Char.isDigit then some (digitsVal cs) else none

def parseSignedInt : List Char → Option Int
  | '-' :: cs => (parseDigits cs).map fun n => -(n : Int)
  | '+' :: cs => (parseDigits cs).map fun n => (n : Int)
  | cs => (parseDigits cs).map fun n => (n : Int)

/-- JS `Number()` applied to a string, on its integer fragment: the trimmed
empty string is 0, an optional sign followed by decimal digits is that
integer, anything else is `NaN`. -/
def strToNum (s : String) : JNum :=
  let t := trimChars s.data
  if t.isEmpty then JNum.int 0
  else
    match parseSignedInt t with
    | some n => JNum.int n
    | none => JNum.nan

/-- JS `Number()` coercion: `Number(undefined) = NaN`, `Number(null) = 0`,
numbers pass through, strings via `strToNum`, booleans to 0/1. -/
def toNumber : JSVal → JNum
  | JSVal.undef => JNum.nan
  | JSVal.jsNull => JNum.int 0
  | JSVal.num v => v
  | JSVal.str s => strToNum s
  | JSVal.boolVal b => JNum.int (if b then 1 else 0)

/-- Whether a JS value is nullish (`null` or `undefined`), the condition the
`??` operator tests. -/
def nullish : JSVal → Bool
  | JSVal.undef => true
  | JSVal.jsNull => true
  | _ => false

/-- The JS nullish-coalescing operator `a ?? b`. -/
def coalesce (a b : JSVal) : JSVal := if nullish a then b else a

/-- JS `x || 0` on a number: the falsy numbers `0` and `NaN` give `0`. -/
def orZero (v : JNum) : JNum :=
  if v = JNum.int 0 ∨ v = JNum.nan then JNum.int 0 else v

/-! ### Normalizer and classifier (src/unnamed/part_002 lines 35-67) -/

/-- The parsed request body's fields of interest; a field absent from the
posted object reads as `undefined`. -/
structure RawReading where
  pulses : JSVal
  p : JSVal
  rotations : JSVal
  r : JSVal
  lat : JSVal
  la : JSVal
  lon : JSVal
  lo : JSVal
deriving DecidableEq

/-- The canonical compact form `{p, r, la, lo}`. -/
structure CompactReading where
  p : JNum
  r : JNum
  la : JNum
  lo : JNum
deriving DecidableEq

/-- `compressReading` from the source: each field is
`Number(long ?? short ?? 0)`. -/
def compressReading (input : RawReading) : CompactReading :=
  ⟨toNumber (coalesce input.pulses (coalesce input.p (JSVal.num (JNum.int 0)))),
   toNumber (coalesce input.rotations (coalesce input.r (JSVal.num (JNum.int 0)))),
   toNumber (coalesce input.lat (coalesce input.la (JSVal.num (JNum.int 0)))),
   toNumber (coalesce input.lon (coalesce input.lo (JSVal.num (JNum.int 0))))⟩

/-- `computeStatus(currentFlow, previousFlow)` from the source: noise
suppression, the threshold check, then the spike check, returning
`{status, flow}`. -/
def computeStatus (currentFlow previousFlow : JNum) : String × JNum :=
  let flow :=
    if ((currentFlow.sub previousFlow).abs.ltB (JNum.int NOISE_THRESHOLD)) then previousFlow
    else currentFlow
  let status := "SAFE"
  let status := if flow.gtB (JNum.int SAFE_THRESHOLD) then "DANGER" else status
  let status :=
    if ((flow.sub previousFlow).abs.gtB (JNum.int SPIKE_LIMIT)) then "DANGER" else status
  (status, flow)

/-- `normalizeStatus` from the source: an exact case-insensitive "DANGER"
stays DANGER, everything else renders SAFE. -/
def normalizeStatus (s : String) : String :=
  if s.toUpper = "DANGER" then "DANGER" else "SAFE"

/-- The adjusted flow as §4.2 of the spec words it, for comparison with
`computeStatus`: pinned to `previousFlow` under the noise threshold,
otherwise the raw value. -/
def specAdjustedFlow (currentFlow previousFlow : Int) : Int :=
  if |currentFlow - previousFlow| < NOISE_THRESHOLD then previousFlow else currentFlow

/-! ### State store -/

/-- A history document: the compact fields plus status, timestamp and day. -/
structure Entry where
  p : JNum
  r : JNum
  la : JNum
  lo : JNum
  s : String
  t : Int
  d : String
deriving DecidableEq

/-- The singleton `latest` document as the handler writes it. -/
structure LatestDoc where
  p : JNum
  r : JNum
  la : JNum
  lo : JNum
  s : String
  t : Int
  d : String
  lastAlert : Int
deriving DecidableEq

/-- The persistent state: the `latest` singleton and the `history`
collection. -/
structure DB where
  latest : Option LatestDoc
  history : List Entry
deriving DecidableEq

/-- The history sorted ascending by `t` (`find().sort(t:1)`); stable on
ties. -/
def sortByT (h : List Entry) : List Entry :=
  List.insertionSort (fun a b => a.t ≤ b.t) h

/-- The trim step run after an insert: count the documents and, when over
`MAX_HISTORY_DOCS`, delete the recomputed overflow `count − MAX_HISTORY_DOCS`
oldest documents by `t`. -/
def trimToCapacity (h : List Entry) : List Entry :=
  if h.length > MAX_HISTORY_DOCS then (sortByT h).drop (h.length - MAX_HISTORY_DOCS)
  else h

/-- `prev.r || 0` where `prev` is the stored latest document or `{}`:
a missing record, a stored 0 and a stored `NaN` all classify against 0. -/
def prevFlow (db : DB) : JNum :=
  match db.latest with
  | some prev => orZero prev.r
  | none => JNum.int 0

/-- `prev.t || 0`: the stored latest timestamp, 0 when no record exists. -/
def prevT (db : DB) : Int :=
  match db.latest with
  | some prev => prev.t
  | none => 0

/-- `prev.lastAlert || 0`: the stored last-alert time, 0 when no record
exists. -/
def prevLastAlert (db : DB) : Int :=
  match db.latest with
  | some prev => prev.lastAlert
  | none => 0

/-! ### Alert dispatcher (ALERT LOGIC block) -/

/-- The inlined alert decision: fire iff the new status is DANGER and the
cooldown has elapsed; on firing the new last-alert time is `now`, otherwise
it is kept. -/
def maybeAlert (newStatus : String) (previousLastAlertTime now : Int) : Bool × Int :=
  if newStatus = "DANGER" ∧ now - previousLastAlertTime > cooldownMs then (true, now)
  else (false, previousLastAlertTime)

/-- One fold step over a sampled DANGER sequence: count a fired alert and
carry the last-alert time. -/
def alertStep (acc : Nat × Int) (t : Int) : Nat × Int :=
  let ma := maybeAlert "DANGER" acc.2 t
  (acc.1 + (if ma.1 then 1 else 0), ma.2)

/-- How many alerts fire over a list of sample times that all carry status
DANGER, starting from a given last-alert time. -/
def alertCount (times : List Int) (initLastAlert : Int) : Nat :=
  (times.foldl alertStep (0, initLastAlert)).1

/-! ### POST handler (src/unnamed/part_002 MAIN HANDLER, POST branch) -/

/-- An error response body: the `error` string and, when the handler echoes
the raw payload, that payload (`part_002` never does; `raw := none`
throughout). -/
structure ErrorBody where
  error : String
  raw : Option String
deriving DecidableEq

/-- The POST branch's possible responses. -/
inductive Res where
  | tooLarge : ErrorBody → Res
  | badRequest : ErrorBody → Res
  | ok : String → Res
deriving DecidableEq

/-- What an error response echoes of the raw payload. -/
def resRawEcho : Res → Option String
  | Res.tooLarge b => b.raw
  | Res.badRequest b => b.raw
  | Res.ok _ => none

/-- The handler's outcome: the new store state, the HTTP response, and
whether `sendOneSignalAlert` was invoked. -/
structure PostOutcome where
  db : DB
  res : Res
  alertFired : Bool
deriving DecidableEq

/-- The entry the handler builds from a parsed reading: compact fields, the
classifier's adjusted flow as `r`, its status, the current time and day. -/
def mkEntry (db : DB) (data : RawReading) (nowTime : Int) (today : String) : Entry :=
  let compressed := compressReading data
  let sf := computeStatus compressed.r (prevFlow db)
  ⟨compressed.p, sf.2, compressed.la, compressed.lo, sf.1, nowTime, today⟩

/-- The POST branch of `handler`: body-size guard, `JSON.parse` guard
(`parsed = none` models a parse failure on `raw`), classification against the
freshly read latest record, the throttled history append with its trim, the
alert decision, and the unconditional upsert of the latest record. -/
def postHandler (db : DB) (raw : String) (parsed : Option RawReading) (nowTime : Int)
    (today : String) : PostOutcome :=
  if raw.utf8ByteSize > MAX_BODY_BYTES then
    ⟨db, Res.tooLarge ⟨"Payload too large", none⟩, false⟩
  else
    match parsed with
    | none => ⟨db, Res.badRequest ⟨"Invalid JSON", none⟩, false⟩
    | some data =>
      let entry := mkEntry db data nowTime today
      let history1 :=
        if nowTime - prevT db > SAVE_INTERVAL_MS then trimToCapacity (db.history ++ [entry])
        else db.history
      let ma := maybeAlert entry.s (prevLastAlert db) nowTime
      let newLatest : LatestDoc :=
        ⟨entry.p, entry.r, entry.la, entry.lo, entry.s, entry.t, entry.d, ma.2⟩
      ⟨⟨some newLatest, history1⟩, Res.ok entry.s, ma.1⟩

/-! ### GET latest handler -/

/-- The latest-snapshot wire object. -/
structure LatestView where
  pulses : JNum
  rotations : JNum
  lat : JNum
  lon : JNum
  status : String
  timestamp : Int
  date : String
deriving DecidableEq

/-- The GET-latest branch: the empty object when no record exists, otherwise
the long-form remapping with status normalization. -/
def getLatestHandler (db : DB) : Option LatestView :=
  db.latest.map fun l => ⟨l.p, l.r, l.la, l.lo, normalizeStatus l.s, l.t, l.d⟩

/-! ### Helper lemmas and instances -/

instance : IsTotal Entry (fun a b => a.t ≤ b.t) := ⟨fun a b => Int.le_total a.t b.t⟩

instance : IsTrans Entry (fun a b => a.t ≤ b.t) := ⟨fun _ _ _ hab hbc => le_trans hab hbc⟩

/-- The spike check can only strengthen the status: once the threshold check
fires, the classifier returns DANGER. -/
theorem danger_of_gtB (c p : JNum)
    (h : (computeStatus c p).2.gtB (JNum.int SAFE_THRESHOLD) = true) :
    (computeStatus c p).1 = "DANGER" := by
  simp only [computeStatus] at h ⊢
  split <;> simp_all

/-! ### C1: threshold-only DANGER rule -/

/-- C1 counterexample: `computeStatus(50, 0)` returns DANGER although the
adjusted flow 50 does not exceed `SAFE_THRESHOLD` (120) — the source's spike
check (`|flow − previousFlow| > SPIKE_LIMIT`) forces DANGER, so status is
not DANGER iff adjusted flow exceeds 120. -/
theorem spike_check_forces_danger_below_threshold :
    computeStatus (JNum.int 50) (JNum.int 0) = ("DANGER", JNum.int 50) ∧
    ¬((50 : Int) > 120) := by decide

/-- C1 amended: for every integer pair, the adjusted flow is the
noise-suppressed value, and the classifier returns DANGER iff the adjusted
flow exceeds `SAFE_THRESHOLD` (120) or the spike magnitude
`|adjustedFlow − previousFlow|` exceeds `SPIKE_LIMIT` (40). -/
theorem computeStatus_danger_iff_threshold_or_spike (c p : Int) :
    (computeStatus (JNum.int c) (JNum.int p)).2 = JNum.int (specAdjustedFlow c p) ∧
    ((computeStatus (JNum.int c) (JNum.int p)).1 = "DANGER" ↔
      (SAFE_THRESHOLD < specAdjustedFlow c p ∨ SPIKE_LIMIT < |specAdjustedFlow c p - p|)) := by
  simp only [computeStatus, specAdjustedFlow, JNum.sub, JNum.abs, JNum.ltB, JNum.gtB,
    NOISE_THRESHOLD, SAFE_THRESHOLD, SPIKE_LIMIT, decide_eq_true_eq]
  split_ifs <;> simp_all

/-! ### C2: alert cooldown rule -/

/-- C2 counterexample: with the stored last-alert time 0, a DANGER reading at
`now = 20000` fires an alert although `now − previousLastAlertTime` does not
exceed the claimed 60000 ms cooldown — the source's `cooldownMs` is 10000. -/
theorem alert_fires_before_claimed_60s_cooldown :
    maybeAlert "DANGER" 0 20000 = (true, 20000) ∧ ¬((20000 : Int) - 0 > 60000) := by decide

/-- C2 amended: an alert fires iff the new status is DANGER and
`now − previousLastAlertTime > 10000` (the source's `cooldownMs`); on firing
the last-alert time becomes `now`, otherwise it is kept, and the rule is
level- not edge-triggered: a sustained DANGER condition sampled every 5 s for
70 s fires exactly 5 alerts. -/
theorem maybeAlert_cooldown_rule_and_sustained_count :
    (∀ s la now, ((maybeAlert s la now).1 = true ↔ (s = "DANGER" ∧ now - la > 10000))) ∧
    (∀ s la now, (maybeAlert s la now).1 = true → (maybeAlert s la now).2 = now) ∧
    (∀ s la now, (maybeAlert s la now).1 = false → (maybeAlert s la now).2 = la) ∧
    alertCount ((List.range 15).map fun i => 1000000 + 5000 * (i : Int)) 0 = 5 := by
  refine ⟨?_, ?_, ?_, by decide⟩ <;> intro s la now <;>
    unfold maybeAlert <;> split_ifs with h <;> simp_all [cooldownMs]

/-- C2 witness: the cooldown rule evaluated at concrete inputs. -/
theorem maybeAlert_cooldown_rule_witness :
    (maybeAlert "DANGER" 0 999999).1 = true ∧ (maybeAlert "DANGER" 0 999999).2 = 999999 ∧
    (maybeAlert "SAFE" 7 999999).2 = 7 :=
  ⟨(maybeAlert_cooldown_rule_and_sustained_count.1 "DANGER" 0 999999).mpr (by decide),
   maybeAlert_cooldown_rule_and_sustained_count.2.1 "DANGER" 0 999999
     ((maybeAlert_cooldown_rule_and_sustained_count.1 "DANGER" 0 999999).mpr (by decide)),
   maybeAlert_cooldown_rule_and_sustained_count.2.2.1 "SAFE" 7 999999 (by decide)⟩

/-! ### C3: history retention invariant -/

/-- C3: after the trim step the history holds at most `MAX_HISTORY_DOCS`
(5000) entries; when it was over capacity, exactly the recomputed overflow
`count − 5000` oldest entries by `t` are deleted and the survivors are the
5000 most-recent — so any transiently over-capacity log (of whatever excess)
self-heals in one trim. -/
theorem trimToCapacity_retention_invariant (h : List Entry) :
    (trimToCapacity h).length ≤ MAX_HISTORY_DOCS ∧
    (MAX_HISTORY_DOCS < h.length →
      (trimToCapacity h).length = MAX_HISTORY_DOCS ∧
      ∃ dropped, dropped.length = h.length - MAX_HISTORY_DOCS ∧
        h.Perm (dropped ++ trimToCapacity h) ∧
        ∀ x ∈ dropped, ∀ y ∈ trimToCapacity h, x.t ≤ y.t) := by
  have hperm : (sortByT h).Perm h := List.perm_insertionSort _ h
  have hlen : (sortByT h).length = h.length := hperm.length_eq
  have hsorted : List.Sorted (fun a b : Entry => a.t ≤ b.t) (sortByT h) :=
    List.sorted_insertionSort _ h
  constructor
  · unfold trimToCapacity
    split
    · rw [List.length_drop, hlen]; omega
    · omega
  · intro hover
    have hcond : h.length > MAX_HISTORY_DOCS := hover
    have htrim : trimToCapacity h = (sortByT h).drop (h.length - MAX_HISTORY_DOCS) := by
      unfold trimToCapacity; rw [if_pos hcond]
    refine ⟨?_, (sortByT h).take (h.length - MAX_HISTORY_DOCS), ?_, ?_, ?_⟩
    · rw [htrim, List.length_drop, hlen]; omega
    · rw [List.length_take, hlen]; omega
    · rw [htrim, List.take_append_drop]; exact hperm.symm
    · intro x hx y hy
      rw [htrim] at hy
      have hp := hsorted
      rw [← List.take_append_drop (h.length - MAX_HISTORY_DOCS) (sortByT h)] at hp
      exact (List.pairwise_append.mp hp).2.2 x hx y hy

/-- A concrete history entry for the retention witness. -/
def e0 : Entry := ⟨JNum.int 0, JNum.int 0, JNum.int 0, JNum.int 0, "SAFE", 0, ""⟩

/-- C3 witness: a log of 5001 entries trims to exactly 5000. -/
theorem trimToCapacity_retention_invariant_witness :
    (trimToCapacity (List.replicate 5001 e0)).length = MAX_HISTORY_DOCS :=
  ((trimToCapacity_retention_invariant (List.replicate 5001 e0)).2
    (by simp only [List.length_replicate]; decide)).1

/-! ### C4: noise suppression -/

/-- C4: for every integer pair, the classifier's adjusted flow is pinned to
`previousFlow` exactly when `|currentFlow − previousFlow| < NOISE_THRESHOLD`
(2), and is `currentFlow` otherwise. -/
theorem computeStatus_noise_suppression (c p : Int) :
    (computeStatus (JNum.int c) (JNum.int p)).2 =
      JNum.int (if |c - p| < NOISE_THRESHOLD then p else c) := by
  simp only [computeStatus, JNum.sub, JNum.abs, JNum.ltB, JNum.gtB, NOISE_THRESHOLD,
    decide_eq_true_eq]
  split_ifs <;> simp_all

/-- C4 witness: noise suppression evaluated at a pinned and a non-pinned
pair. -/
theorem computeStatus_noise_suppression_witness :
    (computeStatus (JNum.int 3) (JNum.int 4)).2 = JNum.int 4 ∧
    (computeStatus (JNum.int 100) (JNum.int 0)).2 = JNum.int 100 :=
  ⟨(computeStatus_noise_suppression 3 4).trans (by decide),
   (computeStatus_noise_suppression 100 0).trans (by decide)⟩

/-! ### C5: unconditional latest overwrite, throttled history append -/

/-- A reading used in the C5 scenarios. -/
def rdC5 : RawReading :=
  ⟨JSVal.num (JNum.int 5), JSVal.undef, JSVal.num (JNum.int 50), JSVal.undef,
   JSVal.num (JNum.int 1), JSVal.undef, JSVal.num (JNum.int 2), JSVal.undef⟩

/-- A store whose latest record carries timestamp 0, for the C5
counterexample. -/
def dbC5x : DB :=
  ⟨some ⟨JNum.int 0, JNum.int 0, JNum.int 0, JNum.int 0, "SAFE", 0, "2026-02-03", 0⟩, []⟩

/-- C5 counterexample: a POST 5000 ms after the stored timestamp appends no
history entry although 5000 ms exceeds the claimed `SAVE_INTERVAL_MS = 3000`
— the source's `SAVE_INTERVAL_MS` is 10000. -/
theorem no_history_append_at_5000ms_gap :
    (postHandler dbC5x "x" (some rdC5) 5000 "2026-02-03").db.history = [] ∧
    (5000 : Int) - prevT dbC5x > 3000 := by decide

/-- C5 amended: on every accepted POST the latest record is overwritten
unconditionally with the new timestamp, while a history entry is appended
(followed by the trim) only when the elapsed time since the stored latest
timestamp exceeds `SAVE_INTERVAL_MS` (10000 ms, not 3000 ms); two POSTs
1000 ms apart from a fresh store still produce exactly one history append and
two latest-state overwrites. -/
theorem post_overwrites_latest_and_throttles_history (db : DB) (rd : RawReading)
    (raw : String) (now : Int) (d : String)
    (hsz : raw.utf8ByteSize ≤ MAX_BODY_BYTES) :
    ((∃ rec, (postHandler db raw (some rd) now d).db.latest = some rec ∧ rec.t = now ∧
        rec.r = (mkEntry db rd now d).r) ∧
      (now - prevT db > SAVE_INTERVAL_MS →
        (postHandler db raw (some rd) now d).db.history =
          trimToCapacity (db.history ++ [mkEntry db rd now d])) ∧
      (¬ now - prevT db > SAVE_INTERVAL_MS →
        (postHandler db raw (some rd) now d).db.history = db.history)) ∧
    ((postHandler ⟨none, []⟩ "x" (some rdC5) 100000 "2026-02-03").db.history.length = 1 ∧
      ((postHandler ⟨none, []⟩ "x" (some rdC5) 100000 "2026-02-03").db.latest.map LatestDoc.t)
        = some 100000 ∧
      (postHandler (postHandler ⟨none, []⟩ "x" (some rdC5) 100000 "2026-02-03").db "x"
          (some rdC5) 101000 "2026-02-03").db.history.length = 1 ∧
      ((postHandler (postHandler ⟨none, []⟩ "x" (some rdC5) 100000 "2026-02-03").db "x"
          (some rdC5) 101000 "2026-02-03").db.latest.map LatestDoc.t) = some 101000) := by
  have hns : ¬ raw.utf8ByteSize > MAX_BODY_BYTES := by omega
  refine ⟨?_, by decide⟩
  simp only [postHandler, if_neg hns]
  refine ⟨⟨_, rfl, rfl, rfl⟩, ?_, ?_⟩
  · intro hcond; simp only [if_pos hcond]
  · intro hcond; simp only [if_neg hcond]

/-- C5 witness: the latest record is overwritten at a concrete POST. -/
theorem post_overwrites_latest_and_throttles_history_witness :
    ∃ rec, (postHandler ⟨none, []⟩ "x" (some rdC5) 50000 "d").db.latest = some rec ∧
      rec.t = 50000 ∧ rec.r = (mkEntry ⟨none, []⟩ rdC5 50000 "d").r :=
  (post_overwrites_latest_and_throttles_history ⟨none, []⟩ rdC5 "x" 50000 "d"
    (by decide)).1.1

/-! ### C6: round-trip of ingested fields through the latest snapshot -/

/-- A store whose latest record holds flow 10, for the C6 counterexample. -/
def dbC6 : DB :=
  ⟨some ⟨JNum.int 0, JNum.int 10, JNum.int 0, JNum.int 0, "SAFE", 0, "x", 0⟩, []⟩

/-- The C6 counterexample reading: rotations 11 against previous flow 10. -/
def rdC6 : RawReading :=
  ⟨JSVal.num (JNum.int 1), JSVal.undef, JSVal.num (JNum.int 11), JSVal.undef,
   JSVal.num (JNum.int 2), JSVal.undef, JSVal.num (JNum.int 3), JSVal.undef⟩

/-- C6 counterexample: ingesting rotations 11 over a stored flow 10 reads
back rotations 10 — noise suppression stores the adjusted flow, so the
round-trip is not the identity on `rotations`. -/
theorem roundtrip_rotations_lossy :
    ((getLatestHandler (postHandler dbC6 "x" (some rdC6) 20000 "x").db).map
      LatestView.rotations) = some (JNum.int 10) ∧
    (compressReading rdC6).r = JNum.int 11 := by decide

/-- C6 amended: reading the latest snapshot back after an accepted POST
yields `pulses`, `lat` and `lon` identical to the normalized ingested values;
`rotations` reads back as the classifier's adjusted flow, which equals the
ingested rotations exactly when noise suppression does not pin it. -/
theorem roundtrip_latest_snapshot_fields (db : DB) (rd : RawReading) (raw : String)
    (now : Int) (d : String) (hsz : raw.utf8ByteSize ≤ MAX_BODY_BYTES) :
    ∃ v, getLatestHandler (postHandler db raw (some rd) now d).db = some v ∧
      v.pulses = (compressReading rd).p ∧ v.lat = (compressReading rd).la ∧
      v.lon = (compressReading rd).lo ∧
      v.rotations = (computeStatus (compressReading rd).r (prevFlow db)).2 ∧
      (((compressReading rd).r.sub (prevFlow db)).abs.ltB (JNum.int NOISE_THRESHOLD) = false →
        v.rotations = (compressReading rd).r) := by
  have hns : ¬ raw.utf8ByteSize > MAX_BODY_BYTES := by omega
  simp only [postHandler, if_neg hns, getLatestHandler, mkEntry, Option.map_some]
  refine ⟨_, rfl, rfl, rfl, rfl, rfl, ?_⟩
  intro hnoise
  simp [computeStatus, hnoise]

/-- The C6 witness reading. -/
def rdW6 : RawReading :=
  ⟨JSVal.num (JNum.int 4), JSVal.undef, JSVal.num (JNum.int 11), JSVal.undef,
   JSVal.num (JNum.int 6), JSVal.undef, JSVal.num (JNum.int 7), JSVal.undef⟩

/-- C6 witness: the round-trip properties at a concrete POST on a fresh
store. -/
theorem roundtrip_latest_snapshot_fields_witness :
    ∃ v, getLatestHandler (postHandler ⟨none, []⟩ "" (some rdW6) 50 "d").db = some v ∧
      v.pulses = (compressReading rdW6).p ∧ v.lat = (compressReading rdW6).la ∧
      v.lon = (compressReading rdW6).lo ∧
      v.rotations = (computeStatus (compressReading rdW6).r (prevFlow ⟨none, []⟩)).2 ∧
      (((compressReading rdW6).r.sub (prevFlow ⟨none, []⟩)).abs.ltB
          (JNum.int NOISE_THRESHOLD) = false →
        v.rotations = (compressReading rdW6).r) :=
  roundtrip_latest_snapshot_fields ⟨none, []⟩ rdW6 "" 50 "d" (by decide)

/-! ### C7: numeric coercion of raw fields -/

/-- The C7 counterexample reading: a non-numeric string in `pulses`. -/
def rdC7 : RawReading :=
  ⟨JSVal.str "abc", JSVal.undef, JSVal.undef, JSVal.undef, JSVal.undef, JSVal.undef,
   JSVal.undef, JSVal.undef⟩

/-- The all-absent reading used by the C7 witness. -/
def rdC7e : RawReading :=
  ⟨JSVal.undef, JSVal.undef, JSVal.undef, JSVal.undef, JSVal.undef, JSVal.undef,
   JSVal.undef, JSVal.undef⟩

/-- C7 counterexample: `Number("abc")` is `NaN`, not 0 — a non-numeric string
value is not substituted by 0. -/
theorem compress_nonnumeric_string_gives_nan :
    (compressReading rdC7).p = JNum.nan ∧ JNum.nan ≠ JNum.int 0 := by decide

/-- C7 amended: `compressReading` never raises (it is a total function); 0 is
substituted exactly for nullish (null/absent) field pairs, while a
non-nullish non-numeric value flows through `Number()` and can coerce to
`NaN` (e.g. the string "abc"). -/
theorem compress_zero_only_for_nullish :
    (∀ input : RawReading,
      (nullish input.pulses = true → nullish input.p = true →
        (compressReading input).p = JNum.int 0) ∧
      (nullish input.rotations = true → nullish input.r = true →
        (compressReading input).r = JNum.int 0) ∧
      (nullish input.lat = true → nullish input.la = true →
        (compressReading input).la = JNum.int 0) ∧
      (nullish input.lon = true → nullish input.lo = true →
        (compressReading input).lo = JNum.int 0)) ∧
    (compressReading rdC7).p = JNum.nan := by
  refine ⟨fun input => ⟨?_, ?_, ?_, ?_⟩, by decide⟩ <;> intro h1 h2 <;>
    simp [compressReading, coalesce, h1, h2, toNumber]

/-- C7 witness: an entirely absent reading coerces every field to 0. -/
theorem compress_zero_only_for_nullish_witness :
    (compressReading rdC7e).p = JNum.int 0 ∧ (compressReading rdC7e).r = JNum.int 0 :=
  ⟨(compress_zero_only_for_nullish.1 rdC7e).1 (by decide) (by decide),
   (compress_zero_only_for_nullish.1 rdC7e).2.1 (by decide) (by decide)⟩

/-! ### C8: malformed JSON handling -/

/-- C8 counterexample: on a parse failure the 400 response body is the
constant `Invalid JSON` — the raw payload is not surfaced back to the
caller. -/
theorem invalid_json_error_omits_payload :
    resRawEcho (postHandler ⟨none, []⟩ "bad json" none 5 "d").res = none ∧
    resRawEcho (postHandler ⟨none, []⟩ "bad json" none 5 "d").res ≠ some "bad json" := by
  decide

/-- C8 amended: a POST whose payload fails `JSON.parse` is rejected before
normalization with the fixed 400 `Invalid JSON` body (which does not echo the
payload), no alert fires, and neither the latest record nor the history log
changes. -/
theorem invalid_json_rejected_without_state_change (db : DB) (raw : String) (now : Int)
    (d : String) (hsz : raw.utf8ByteSize ≤ MAX_BODY_BYTES) :
    postHandler db raw none now d = ⟨db, Res.badRequest ⟨"Invalid JSON", none⟩, false⟩ := by
  have hns : ¬ raw.utf8ByteSize > MAX_BODY_BYTES := by omega
  simp only [postHandler, if_neg hns]

/-- C8 witness: the rejection at a concrete store and payload. -/
theorem invalid_json_rejected_without_state_change_witness :
    postHandler ⟨none, []⟩ "oops" none 5 "d" =
      ⟨⟨none, []⟩, Res.badRequest ⟨"Invalid JSON", none⟩, false⟩ :=
  invalid_json_rejected_without_state_change ⟨none, []⟩ "oops" 5 "d" (by decide)

/-! ### C9: first-reading defaults -/

/-- C9: with no stored latest record the handler classifies against
`previousFlow = 0` and checks the cooldown against
`previousLastAlertTime = 0`, so a first reading whose adjusted flow exceeds
`SAFE_THRESHOLD` (120) fires an alert immediately (for any realistic
epoch-millisecond `now` beyond the 10000 ms cooldown). -/
theorem first_reading_defaults_zero_and_alerts (rd : RawReading) (raw : String)
    (now : Int) (d : String)
    (hsz : raw.utf8ByteSize ≤ MAX_BODY_BYTES)
    (hnow : cooldownMs < now)
    (hdanger : (computeStatus (compressReading rd).r (JNum.int 0)).2.gtB
      (JNum.int SAFE_THRESHOLD) = true) :
    prevFlow ⟨none, []⟩ = JNum.int 0 ∧ prevLastAlert ⟨none, []⟩ = 0 ∧
    (postHandler ⟨none, []⟩ raw (some rd) now d).alertFired = true := by
  refine ⟨rfl, rfl, ?_⟩
  have hns : ¬ raw.utf8ByteSize > MAX_BODY_BYTES := by omega
  have hst : (computeStatus (compressReading rd).r (prevFlow ⟨none, []⟩)).1 = "DANGER" :=
    danger_of_gtB _ _ hdanger
  simp only [postHandler, if_neg hns, mkEntry, maybeAlert, prevLastAlert, hst]
  simp only [prevFlow] at hst
  simp [hst, cooldownMs] at hnow ⊢
  simp [hnow]

/-- The C9 witness reading: rotations 200 on a fresh store. -/
def rdC9 : RawReading :=
  ⟨JSVal.num (JNum.int 7), JSVal.undef, JSVal.num (JNum.int 200), JSVal.undef,
   JSVal.num (JNum.int 1), JSVal.undef, JSVal.num (JNum.int 2), JSVal.undef⟩

/-- C9 witness: the very first reading with flow 200 fires an alert. -/
theorem first_reading_defaults_zero_and_alerts_witness :
    (postHandler ⟨none, []⟩ "" (some rdC9) 20000 "d").alertFired = true :=
  (first_reading_defaults_zero_and_alerts rdC9 "" 20000 "d" (by decide) (by decide)
    (by decide)).2.2

/-! ### C10: long-form field precedence -/

/-- C10: for each field pair, the long-form value is used whenever it is
non-nullish — including 0 and other falsy values — and the short-form is
consulted exactly when the long-form is null or absent. -/
theorem remap_long_form_precedence (input : RawReading) :
    (nullish input.pulses = false → (compressReading input).p = toNumber input.pulses) ∧
    (nullish input.pulses = true → nullish input.p = false →
      (compressReading input).p = toNumber input.p) ∧
    (nullish input.rotations = false → (compressReading input).r = toNumber input.rotations) ∧
    (nullish input.rotations = true → nullish input.r = false →
      (compressReading input).r = toNumber input.r) ∧
    (nullish input.lat = false → (compressReading input).la = toNumber input.lat) ∧
    (nullish input.lat = true → nullish input.la = false →
      (compressReading input).la = toNumber input.la) ∧
    (nullish input.lon = false → (compressReading input).lo = toNumber input.lon) ∧
    (nullish input.lon = true → nullish input.lo = false →
      (compressReading input).lo = toNumber input.lo) := by
  refine ⟨?_, ?_, ?_, ?_, ?_, ?_, ?_, ?_⟩ <;> intros <;>
    simp_all [compressReading, coalesce]

/-- The C10 witness reading: a falsy-but-present long form (`pulses: 0`) and
a null long form (`rotations: null`) next to present short forms. -/
def rdC10 : RawReading :=
  ⟨JSVal.num (JNum.int 0), JSVal.num (JNum.int 7), JSVal.jsNull, JSVal.num (JNum.int 9),
   JSVal.undef, JSVal.num (JNum.int 4), JSVal.jsNull, JSVal.jsNull⟩

/-- C10 witness: `pulses: 0` wins over `p: 7`, while `rotations: null` falls
through to `r: 9`. -/
theorem remap_long_form_precedence_witness :
    (compressReading rdC10).p = toNumber rdC10.pulses ∧
    (compressReading rdC10).r = toNumber rdC10.r :=
  ⟨(remap_long_form_precedence rdC10).1 (by decide),
   (remap_long_form_precedence rdC10).2.2.2.1 (by decide) (by decide)⟩

end Flowmeter
